import Mathlib

/-!
Shallow embedding of the NiceGUI weather dashboard's core logic
(`app/weather_service.py`, `app/city_service.py`, `app/models.py`) and
proofs about it.

Conventions of the embedding:
* Python numbers (int/float) are modelled as `Int`; no claim depends on
  fractional arithmetic, numeric values are only passed through.
* Timestamps (`datetime`) are modelled as `Int` seconds; `timedelta(minutes=m)`
  is `60 * m` seconds.
* `None`/absent results are `Option`; Python exceptions that may escape a
  function are an explicit `raises` outcome.
* External collaborators (geocoder, reverse geocoder, weather client) are
  explicit function parameters; `datetime.utcnow()` is an explicit `now`
  parameter; the database session is explicit state (`DB`) threaded through.
-/

namespace WeatherApp

/-- A Python value as it can occur in the raw weather payload dict:
a number (int/float collapsed) or a string. -/
inductive PyVal where
  | num : Int → PyVal
  | str : String → PyVal
  deriving DecidableEq, Repr

/-- A Python dict with string keys, as an association list (insertion order). -/
def PyDict := List (String × PyVal)

instance : DecidableEq PyDict := by
  unfold PyDict
  infer_instance

/-- `d[k]` lookup: `some v` if the key is present, `none` models `KeyError`. -/
def dictGet (d : PyDict) (k : String) : Option PyVal :=
  (d.find? (fun p => p.1 = k)).map (·.2)

/-- Whether an ASCII character is cased for the purposes of `str.title()`
(for the ASCII fragment, exactly the letters). -/
def pyIsCased (c : Char) : Bool := c.isAlpha

/-- One step of Python's `str.title()`: given whether the previous character
was cased, produce the transformed character and the new flag. -/
def pyTitleStep (prevCased : Bool) (c : Char) : Char × Bool :=
  if pyIsCased c then
    (if prevCased then c.toLower else c.toUpper, true)
  else
    (c, false)

/-- Python's `str.title()` on the ASCII fragment: the first letter of every
maximal run of letters is uppercased, the following letters lowercased. -/
def pyTitle (s : String) : String :=
  String.mk ((s.data.foldl
    (fun (acc : List Char × Bool) c =>
      let r := pyTitleStep acc.2 c
      (r.1 :: acc.1, r.2))
    ([], false)).1.reverse)

/-- The canonical observation produced by a successful
`parse_weather_response`: the four required fields. -/
structure Parsed where
  temperature : PyVal
  description : String
  humidity : PyVal
  wind_speed : PyVal
  deriving DecidableEq, Repr

/-- Outcome of `WeatherService.parse_weather_response`: a full record, the
empty dict `{}`, or an uncaught Python exception escaping the method. -/
inductive ParseResult where
  | ok : Parsed → ParseResult
  | empty : ParseResult
  | raises : String → ParseResult
  deriving DecidableEq, Repr

/-- `WeatherService.parse_weather_response` on a dict argument.
Mirrors the source: `if not weather_data: return {}`; then the dict literal
is evaluated left to right — `weather_data["temperature"]`,
`weather_data["description"].title()`, `weather_data["humidity"]`,
`weather_data["wind_speed"]` — with `except (KeyError, TypeError): return {}`.
A missing key is a `KeyError`, hence `{}`; a present `description` that is
not a string makes `.title()` raise `AttributeError`, which the `except`
clause does not catch. -/
def parse_weather_response (weather_data : PyDict) : ParseResult :=
  if weather_data.isEmpty then .empty
  else
    match dictGet weather_data "temperature" with
    | none => .empty
    | some t =>
      match dictGet weather_data "description" with
      | none => .empty
      | some d =>
        match d with
        | .num _ => .raises "AttributeError"
        | .str s =>
          match dictGet weather_data "humidity" with
          | none => .empty
          | some h =>
            match dictGet weather_data "wind_speed" with
            | none => .empty
            | some w => .ok ⟨t, pyTitle s, h, w⟩

/-- The provider-shaped current-conditions object returned by the
`python_weather` client: each attribute may be missing/`None`
(`hasattr`/`is not None` both collapse to `Option`). -/
structure RawWeather where
  temperature : Option Int
  description : Option String
  humidity : Option Int
  wind_speed : Option Int
  deriving DecidableEq, Repr

/-- The description `get_weather_data` puts in its dict:
`weather.description if hasattr(...) and weather.description else "Unknown"` —
absent or falsy (empty) collapses to `"Unknown"`. -/
def rawDesc (w : RawWeather) : String :=
  match w.description with
  | some s => if s = "" then "Unknown" else s
  | none => "Unknown"

/-- The dict literal built by `WeatherService.get_weather_data` from a
truthy `weather` object: every absent/`None` numeric attribute defaults to
`0.0`, an absent or falsy (empty) description defaults to `"Unknown"`. -/
def rawWeatherDict (w : RawWeather) : PyDict :=
  [("temperature", .num (w.temperature.getD 0)),
   ("description", .str (rawDesc w)),
   ("humidity", .num (w.humidity.getD 0)),
   ("wind_speed", .num (w.wind_speed.getD 0))]

/-- `WeatherService.get_weather_data(lat, lon)`, with the two external
calls it makes passed in as oracles: `revgeo` is
`_get_city_name_from_coordinates` (reverse geocoding) and `cli` is
`client.get(city_name)`. `None` from either yields `None`; otherwise the
four-field dict with defaults is returned. -/
def get_weather_data (revgeo : Int → Int → Option String)
    (cli : String → Option RawWeather) (lat lon : Int) : Option PyDict :=
  match revgeo lat lon with
  | none => none
  | some city_name =>
    match cli city_name with
    | none => none
    | some w => some (rawWeatherDict w)

/-- A row of the `cities` table (`app/models.py`, class `City`).
`id` is always assigned for stored rows, so it is a plain `Nat` here (the
source guards `city.id is not None` on every stored row). -/
structure City where
  id : Nat
  name : String
  country : String
  latitude : Int
  longitude : Int
  added_at : Int
  deriving DecidableEq, Repr

/-- A row of the `weather_data` table (`app/models.py`, class `WeatherData`). -/
structure WeatherData where
  id : Nat
  city_id : Nat
  temperature : PyVal
  description : String
  humidity : PyVal
  wind_speed : PyVal
  updated_at : Int
  deriving DecidableEq, Repr

/-- The read-only view (`app/models.py`, class `CityWithWeather`): a city
joined with its latest observation, weather fields optional. -/
structure CityWithWeather where
  id : Nat
  name : String
  country : String
  temperature : Option PyVal
  description : Option String
  humidity : Option PyVal
  wind_speed : Option PyVal
  last_updated : Option Int
  deriving DecidableEq, Repr

/-- The persistent store: both tables in insertion order plus the
id sequences. -/
structure DB where
  cities : List City
  weather : List WeatherData
  nextCityId : Nat
  nextWeatherId : Nat
  deriving DecidableEq, Repr

/-- `session.get(City, city_id)`: the stored city with that primary key. -/
def DB.getCity (db : DB) (city_id : Nat) : Option City :=
  db.cities.find? (fun c => c.id = city_id)

/-- The observations belonging to one city
(`select(WeatherData).where(WeatherData.city_id == city_id)`), in stored
order. -/
def DB.cityObs (db : DB) (city_id : Nat) : List WeatherData :=
  db.weather.filter (fun w => w.city_id = city_id)

/-- One comparison step of the latest-observation scan: keep the row with
the strictly greater `updated_at`, the earlier-stored row on ties. -/
def latestStep (acc : Option WeatherData) (w : WeatherData) : Option WeatherData :=
  match acc with
  | none => some w
  | some b => if w.updated_at > b.updated_at then some w else acc

/-- `.order_by(desc(WeatherData.updated_at)) ... .first()` over a city's
observations: the first stored row among those of maximal `updated_at`
(the sort is by `updated_at` alone; ties keep a deterministic stable
choice in this model). `none` when the city has no observations. -/
def latestObservation (db : DB) (city_id : Nat) : Option WeatherData :=
  (db.cityObs city_id).foldl latestStep none

/-- The `CityWithWeather` record `get_all_cities_with_weather` builds for
one city: all five weather fields from the latest observation, or all
`None` when there is none. -/
def cityView (db : DB) (c : City) : CityWithWeather :=
  match latestObservation db c.id with
  | some w =>
    ⟨c.id, c.name, c.country, some w.temperature, some w.description,
     some w.humidity, some w.wind_speed, some w.updated_at⟩
  | none => ⟨c.id, c.name, c.country, none, none, none, none, none⟩

/-- `CityService.get_all_cities_with_weather`: one view per stored city,
in store order. -/
def get_all_cities_with_weather (db : DB) : List CityWithWeather :=
  db.cities.map (cityView db)

/-- The external collaborators `update_weather_data` reaches through
`weather_service`: reverse geocoding and the weather client. -/
structure WeatherEnv where
  revgeo : Int → Int → Option String
  cli : String → Option RawWeather

/-- Append one observation row built from a parsed record
(`WeatherData(city_id=..., temperature=parsed_data["temperature"], ...)`
followed by `session.add`/`commit`; `updated_at` defaults to now). -/
def DB.addObservation (db : DB) (city_id : Nat) (p : Parsed) (now : Int) : DB :=
  { db with
    weather := db.weather ++
      [⟨db.nextWeatherId, city_id, p.temperature, p.description,
        p.humidity, p.wind_speed, now⟩],
    nextWeatherId := db.nextWeatherId + 1 }

/-- `CityService.update_weather_data(city_id)`: look the city up, fetch via
`weather_service.get_weather_data`, parse via
`weather_service.parse_weather_response`, and on success append exactly one
observation. Any stage yielding `None`/empty short-circuits to `false`
with the store untouched; an exception escaping `parse_weather_response`
escapes this method too (`.error`). -/
def update_weather_data (env : WeatherEnv) (now : Int) (db : DB)
    (city_id : Nat) : Except String (Bool × DB) :=
  match db.getCity city_id with
  | none => .ok (false, db)
  | some city =>
    match get_weather_data env.revgeo env.cli city.latitude city.longitude with
    | none => .ok (false, db)
    | some weather_data =>
      match parse_weather_response weather_data with
      | .raises e => .error e
      | .empty => .ok (false, db)
      | .ok parsed => .ok (true, db.addObservation city.id parsed now)

/-- `CityService.add_city(city_name, country)`: geocode first (`None` means
no record created), then return an existing city with that name unchanged,
else insert the new city and attempt one initial weather update for it
(whose outcome does not affect the returned city). -/
def add_city (geo : String → Option (Int × Int)) (env : WeatherEnv)
    (now : Int) (db : DB) (city_name country : String) :
    Except String (Option City × DB) :=
  match geo city_name with
  | none => .ok (none, db)
  | some (lat, lon) =>
    match db.cities.find? (fun c => c.name = city_name) with
    | some existing => .ok (some existing, db)
    | none =>
      let new_city : City := ⟨db.nextCityId, city_name, country, lat, lon, now⟩
      let db1 : DB := { db with
        cities := db.cities ++ [new_city],
        nextCityId := db.nextCityId + 1 }
      match update_weather_data env now db1 new_city.id with
      | .error e => .error e
      | .ok (_, db2) => .ok (some new_city, db2)

/-- One iteration of the `refresh_all_weather_data` loop body:
`success = await update_weather_data(city.id); if success: updated_count += 1`. -/
def refreshStep (env : WeatherEnv) (now : Int) (acc : Nat × DB) (c : City) :
    Except String (Nat × DB) :=
  match update_weather_data env now acc.2 c.id with
  | .error e => .error e
  | .ok (success, db2) => .ok (if success then acc.1 + 1 else acc.1, db2)

/-- The sequential `for city in cities` loop of `refresh_all_weather_data`,
threading the counter and the store; an escaping exception aborts the
batch (never reached along real payloads). -/
def refreshGo (env : WeatherEnv) (now : Int) :
    List City → Nat × DB → Except String (Nat × DB)
  | [], acc => .ok acc
  | c :: l, acc =>
    match refreshStep env now acc c with
    | .error e => .error e
    | .ok acc2 => refreshGo env now l acc2

/-- `CityService.refresh_all_weather_data()`: snapshot the city list, then
sequentially run `update_weather_data` per city, counting successes. -/
def refresh_all_weather_data (env : WeatherEnv) (now : Int) (db : DB) :
    Except String (Nat × DB) :=
  refreshGo env now db.cities (0, db)

/-- `CityService.delete_city(city_id)`: `false` if the city is absent;
otherwise delete every observation of the city and the city itself in one
commit. -/
def delete_city (db : DB) (city_id : Nat) : Bool × DB :=
  match db.getCity city_id with
  | none => (false, db)
  | some _ =>
    (true,
     { db with
       cities := db.cities.filter (fun c => ¬ c.id = city_id),
       weather := db.weather.filter (fun w => ¬ w.city_id = city_id) })

/-- `CityService.is_weather_data_stale(city_with_weather, max_age_minutes)`:
`True` when `last_updated` is absent, else `utcnow() - last_updated >
timedelta(minutes=max_age_minutes)` (strict). Timestamps in seconds,
`now` passed explicitly. -/
def is_weather_data_stale (now : Int) (city_with_weather : CityWithWeather)
    (max_age_minutes : Int := 30) : Bool :=
  match city_with_weather.last_updated with
  | none => true
  | some t => now - t > 60 * max_age_minutes

/-- The raw conditions the weather collaborators yield for one city
(reverse geocode its coordinates, then query the client). -/
def rawFor (env : WeatherEnv) (c : City) : Option RawWeather :=
  match env.revgeo c.latitude c.longitude with
  | none => none
  | some city_name => env.cli city_name

/-- The parsed record `update_weather_data` would store for a city whose
fetch succeeds. -/
def parsedFor (env : WeatherEnv) (c : City) : Option Parsed :=
  (rawFor env c).map (fun w =>
    ⟨.num (w.temperature.getD 0), pyTitle (rawDesc w),
     .num (w.humidity.getD 0), .num (w.wind_speed.getD 0)⟩)

/-- Whether the per-city weather update succeeds for a stored city: the
provider fetch yields conditions (the only failing stage for a stored
city, since provider payloads always normalize). -/
def citySucceeds (env : WeatherEnv) (c : City) : Bool :=
  (rawFor env c).isSome

/-! ### Concrete fixtures (small stores and collaborators used to
instantiate the theorems on executable inputs) -/

/-- A fully populated provider conditions object. -/
def rawEx : RawWeather := ⟨some 20, some "clear sky", some 50, some 3⟩

/-- A provider conditions object with every attribute absent. -/
def rawEmptyEx : RawWeather := ⟨none, none, none, none⟩

/-- Collaborators for which reverse geocoding succeeds exactly at
latitude 0 and the client always answers. -/
def envEx : WeatherEnv :=
  ⟨fun lat _ => if lat = 0 then some "Alpha" else none, fun _ => some rawEx⟩

def cityA : City := ⟨1, "Alpha", "", 0, 0, 0⟩

def cityB : City := ⟨2, "Beta", "", 5, 5, 0⟩

/-- Two tracked cities, no observations yet. -/
def dbEx : DB := ⟨[cityA, cityB], [], 3, 1⟩

/-- A geocoder that fails on every name. -/
def geoFailEx : String → Option (Int × Int) := fun _ => none

/-- A geocoder that resolves every name to the origin. -/
def geoOkEx : String → Option (Int × Int) := fun _ => some (0, 0)

def obsOld : WeatherData := ⟨1, 1, .num 20, "Old", .num 40, .num 2, 100⟩

def obsNew : WeatherData := ⟨2, 1, .num 25, "New", .num 60, .num 4, 200⟩

/-- One city with two observations of distinct timestamps. -/
def dbObs : DB := ⟨[cityA], [obsOld, obsNew], 3, 3⟩

/-- A raw payload with all four fields, description a string. -/
def goodPayloadEx : PyDict :=
  [("temperature", .num 22), ("description", .str "clear sky"),
   ("humidity", .num 65), ("wind_speed", .num 3)]

/-- A raw payload whose description field has the wrong shape (a number). -/
def badPayloadEx : PyDict :=
  [("temperature", .num 22), ("description", .num 5),
   ("humidity", .num 65), ("wind_speed", .num 3)]

/-- A view whose data is 600 seconds (10 minutes) older than time 0. -/
def staleViewEx : CityWithWeather :=
  ⟨1, "Alpha", "", none, none, none, none, some (-600)⟩

/-- A view with no weather data at all. -/
def emptyViewEx : CityWithWeather :=
  ⟨1, "Alpha", "", none, none, none, none, none⟩

/-! ### Basic lemmas about the embedding -/

theorem dictGet_rawWeatherDict_temperature (w : RawWeather) :
    dictGet (rawWeatherDict w) "temperature" = some (.num (w.temperature.getD 0)) := by
  simp [rawWeatherDict, dictGet, List.find?]

theorem dictGet_rawWeatherDict_description (w : RawWeather) :
    dictGet (rawWeatherDict w) "description" = some (.str (rawDesc w)) := by
  simp [rawWeatherDict, dictGet, List.find?]

theorem dictGet_rawWeatherDict_humidity (w : RawWeather) :
    dictGet (rawWeatherDict w) "humidity" = some (.num (w.humidity.getD 0)) := by
  simp [rawWeatherDict, dictGet, List.find?]

theorem dictGet_rawWeatherDict_wind_speed (w : RawWeather) :
    dictGet (rawWeatherDict w) "wind_speed" = some (.num (w.wind_speed.getD 0)) := by
  simp [rawWeatherDict, dictGet, List.find?]

/-- Payloads built by `get_weather_data` always normalize to a full record:
all four keys are present and the description is a string. -/
theorem parse_rawWeatherDict (w : RawWeather) :
    parse_weather_response (rawWeatherDict w) =
      .ok ⟨.num (w.temperature.getD 0), pyTitle (rawDesc w),
           .num (w.humidity.getD 0), .num (w.wind_speed.getD 0)⟩ := by
  simp [parse_weather_response, rawWeatherDict, dictGet, List.find?]

/-- `get_weather_data` is `rawWeatherDict` over the composed collaborators. -/
theorem get_weather_data_eq (env : WeatherEnv) (c : City) :
    get_weather_data env.revgeo env.cli c.latitude c.longitude =
      (rawFor env c).map rawWeatherDict := by
  unfold get_weather_data rawFor
  cases env.revgeo c.latitude c.longitude with
  | none => rfl
  | some n =>
    cases h : env.cli n with
    | none => simp [h]
    | some w => simp [h]

/-- A successful `session.get(City, cid)` returns a row whose key is `cid`. -/
theorem getCity_some_id {db : DB} {cid : Nat} {c : City}
    (h : db.getCity cid = some c) : c.id = cid := by
  have := List.find?_some h
  exact of_decide_eq_true this

/-- Searching a list of cities with distinct keys for the key of one of
its members finds exactly that member. -/
theorem find?_id_self {l : List City} {c : City}
    (hnd : (l.map City.id).Nodup) (hc : c ∈ l) :
    l.find? (fun x => x.id = c.id) = some c := by
  induction l with
  | nil => cases hc
  | cons a l ih =>
    have hnd' : (l.map City.id).Nodup := (List.nodup_cons.mp (by simpa using hnd)).2
    have hhd : a.id ∉ l.map City.id := (List.nodup_cons.mp (by simpa using hnd)).1
    rcases List.mem_cons.mp hc with h | h
    · subst h
      simp [List.find?]
    · have hne : ¬ a.id = c.id := fun he =>
        hhd (he ▸ List.mem_map_of_mem City.id h)
      rw [List.find?_cons_of_neg _ (by simpa using hne)]
      exact ih hnd' h

/-- Looking a stored city up by its own key finds it, given distinct keys. -/
theorem getCity_self {db : DB} {c : City}
    (hnd : (db.cities.map City.id).Nodup) (hc : c ∈ db.cities) :
    db.getCity c.id = some c :=
  find?_id_self hnd hc

/-- Full characterization of `update_weather_data` on a stored city: it
succeeds and appends exactly the parsed record when the fetch yields one,
and fails leaving the store untouched otherwise. -/
theorem update_run (env : WeatherEnv) (now : Int) {db : DB} {cid : Nat}
    {c : City} (h : db.getCity cid = some c) :
    update_weather_data env now db cid =
      match parsedFor env c with
      | some p => .ok (true, db.addObservation c.id p now)
      | none => .ok (false, db) := by
  simp only [update_weather_data, h, get_weather_data_eq]
  cases hr : rawFor env c with
  | none => simp [parsedFor, hr]
  | some w => simp [parsedFor, hr, parse_rawWeatherDict]

/-- Scanning a nonempty suffix with `latestStep` from a seed yields a row
that is the seed or a member, and dominates the seed and every member. -/
theorem latestStep_foldl (l : List WeatherData) (b : WeatherData) :
    ∃ w, l.foldl latestStep (some b) = some w ∧ (w = b ∨ w ∈ l) ∧
      b.updated_at ≤ w.updated_at ∧ ∀ x ∈ l, x.updated_at ≤ w.updated_at := by
  induction l generalizing b with
  | nil => exact ⟨b, rfl, Or.inl rfl, le_refl _, by simp⟩
  | cons a l ih =>
    by_cases hab : a.updated_at > b.updated_at
    · have hstep : latestStep (some b) a = some a := by simp [latestStep, hab]
      obtain ⟨w, hw, hmem, hle, hall⟩ := ih a
      refine ⟨w, by simpa [hstep] using hw, ?_, le_trans (le_of_lt hab) hle, ?_⟩
      · rcases hmem with h | h
        · exact Or.inr (h ▸ List.mem_cons_self a l)
        · exact Or.inr (List.mem_cons_of_mem a h)
      · intro x hx
        rcases List.mem_cons.mp hx with h | h
        · exact h ▸ hle
        · exact hall x h
    · have hstep : latestStep (some b) a = some b := by simp [latestStep, hab]
      obtain ⟨w, hw, hmem, hle, hall⟩ := ih b
      refine ⟨w, by simpa [hstep] using hw, ?_, hle, ?_⟩
      · rcases hmem with h | h
        · exact Or.inl h
        · exact Or.inr (List.mem_cons_of_mem a h)
      · intro x hx
        rcases List.mem_cons.mp hx with h | h
        · exact h ▸ le_trans (not_lt.mp hab) hle
        · exact hall x h

/-- A returned latest observation belongs to the city's observations and
has maximal timestamp among them. -/
theorem latestObservation_some {db : DB} {cid : Nat} {w : WeatherData}
    (h : latestObservation db cid = some w) :
    w ∈ db.cityObs cid ∧ ∀ x ∈ db.cityObs cid, x.updated_at ≤ w.updated_at := by
  unfold latestObservation at h
  cases hl : db.cityObs cid with
  | nil => rw [hl] at h; cases h
  | cons a l =>
    rw [hl, List.foldl_cons] at h
    obtain ⟨w', hw', hmem, hle, hall⟩ := latestStep_foldl l a
    have hstep : latestStep none a = some a := rfl
    rw [hstep, hw'] at h
    cases h
    refine ⟨?_, ?_⟩
    · rcases hmem with h | h
      · exact h ▸ List.mem_cons_self a l
      · exact List.mem_cons_of_mem a h
    · intro x hx
      rcases List.mem_cons.mp hx with h | h
      · exact h ▸ hle
      · exact hall x h

/-- An observation of a city is a stored row carrying that city's key. -/
theorem mem_cityObs {db : DB} {cid : Nat} {w : WeatherData}
    (h : w ∈ db.cityObs cid) : w ∈ db.weather ∧ w.city_id = cid := by
  have := List.mem_filter.mp h
  exact ⟨this.1, of_decide_eq_true this.2⟩

/-- No latest observation means the city has no observations at all. -/
theorem latestObservation_eq_none {db : DB} {cid : Nat}
    (h : latestObservation db cid = none) : db.cityObs cid = [] := by
  unfold latestObservation at h
  cases hl : db.cityObs cid with
  | nil => rfl
  | cons a l =>
    rw [hl, List.foldl_cons] at h
    obtain ⟨w', hw', -⟩ := latestStep_foldl l a
    have hstep : latestStep none a = some a := rfl
    rw [hstep, hw'] at h
    cases h

/-- The view built for a city carries that city's key, with or without
weather data. -/
theorem cityView_id (db : DB) (c : City) : (cityView db c).id = c.id := by
  unfold cityView
  cases latestObservation db c.id <;> rfl

/-- The fetch succeeds exactly when a record gets parsed for the city. -/
theorem parsedFor_isSome (env : WeatherEnv) (c : City) :
    (parsedFor env c).isSome = citySucceeds env c := by
  unfold parsedFor citySucceeds
  cases rawFor env c <;> rfl

/-- A dict with a retrievable key is not the empty dict. -/
theorem dictGet_some_not_empty {d : PyDict} {k : String} {v : PyVal}
    (h : dictGet d k = some v) : d.isEmpty = false := by
  cases d with
  | nil => cases h
  | cons a l => rfl

/-- Running the refresh loop over cities that are all stored (with their
own keys resolving to themselves) counts exactly the successful fetches,
appends exactly that many observations, and never drops or rewrites
existing observations nor the city table. -/
theorem refreshGo_run (env : WeatherEnv) (now : Int) :
    ∀ (l : List City) (n : Nat) (dbAcc : DB),
      (∀ c ∈ l, dbAcc.getCity c.id = some c) →
      ∃ dbf, refreshGo env now l (n, dbAcc) =
          .ok (n + (l.filter (fun c => citySucceeds env c)).length, dbf) ∧
        dbf.weather.length =
          dbAcc.weather.length + (l.filter (fun c => citySucceeds env c)).length ∧
        dbAcc.weather <+: dbf.weather ∧ dbf.cities = dbAcc.cities := by
  intro l
  induction l with
  | nil =>
    intro n dbAcc _
    exact ⟨dbAcc, by simp [refreshGo], by simp, List.prefix_refl _, rfl⟩
  | cons c l ih =>
    intro n dbAcc hl
    have hc := hl c (List.mem_cons_self c l)
    have hrun := update_run env now hc
    by_cases hs : citySucceeds env c
    · have hps : (parsedFor env c).isSome = true := by
        rw [parsedFor_isSome]
        exact hs
      obtain ⟨p, hp⟩ := Option.isSome_iff_exists.mp hps
      rw [hp] at hrun
      have hcities1 : (dbAcc.addObservation c.id p now).cities = dbAcc.cities := rfl
      have hl' : ∀ x ∈ l, (dbAcc.addObservation c.id p now).getCity x.id = some x := by
        intro x hx
        show (dbAcc.addObservation c.id p now).cities.find? (fun y => y.id = x.id) = some x
        rw [hcities1]
        exact hl x (List.mem_cons_of_mem c hx)
      obtain ⟨dbf, h1, h2, h3, h4⟩ := ih (n + 1) (dbAcc.addObservation c.id p now) hl'
      have hgo : refreshGo env now (c :: l) (n, dbAcc) =
          refreshGo env now l (n + 1, dbAcc.addObservation c.id p now) := by
        simp [refreshGo, refreshStep, hrun]
      have hcount : ((c :: l).filter (fun x => citySucceeds env x)).length =
          (l.filter (fun x => citySucceeds env x)).length + 1 := by
        simp [List.filter_cons, hs]
      have hweather1 : (dbAcc.addObservation c.id p now).weather =
          dbAcc.weather ++ [⟨dbAcc.nextWeatherId, c.id, p.temperature,
            p.description, p.humidity, p.wind_speed, now⟩] := rfl
      refine ⟨dbf, ?_, ?_, ?_, h4.trans hcities1⟩
      · rw [hgo, h1, hcount]
        congr 2
        omega
      · rw [h2, hcount, hweather1]
        simp
        omega
      · exact List.IsPrefix.trans ⟨_, hweather1.symm⟩ h3
    · have hnone : parsedFor env c = none := by
        refine Option.not_isSome_iff_eq_none.mp ?_
        rw [parsedFor_isSome]
        exact hs
      rw [hnone] at hrun
      have hgo : refreshGo env now (c :: l) (n, dbAcc) =
          refreshGo env now l (n, dbAcc) := by
        simp [refreshGo, refreshStep, hrun]
      obtain ⟨dbf, h1, h2, h3, h4⟩ := ih n dbAcc (fun x hx => hl x (List.mem_cons_of_mem c hx))
      have hcount : ((c :: l).filter (fun x => citySucceeds env x)).length =
          (l.filter (fun x => citySucceeds env x)).length := by
        simp [List.filter_cons, hs]
      exact ⟨dbf, by rw [hgo, h1, hcount], by rw [h2, hcount], h3, h4⟩

/-! ### Claims -/

/-- C1: over a store of N tracked cities of which M have a successful
weather fetch, `refresh_all_weather_data` iterates the cities sequentially
and returns exactly M (the number of successful per-city updates), exactly
M new observations exist afterward (final observation count = initial + M),
and a failure on one city neither aborts the batch (the loop completes with
an `ok` result covering every city) nor rolls back the observations written
for earlier cities (the prior observation list is a prefix of the final
one, and all M new rows are present). -/
theorem refresh_all_success_count (env : WeatherEnv) (now : Int) (db : DB)
    (hnd : (db.cities.map City.id).Nodup) :
    ∃ dbf, refresh_all_weather_data env now db =
        .ok ((db.cities.filter (fun c => citySucceeds env c)).length, dbf) ∧
      dbf.weather.length =
        db.weather.length + (db.cities.filter (fun c => citySucceeds env c)).length ∧
      db.weather <+: dbf.weather ∧ dbf.cities = db.cities := by
  obtain ⟨dbf, h1, h2, h3, h4⟩ :=
    refreshGo_run env now db.cities 0 db (fun c hc => getCity_self hnd hc)
  exact ⟨dbf, by simpa using h1, h2, h3, h4⟩

/-- Witness for C1: on a concrete store with two cities of which exactly
one fetch succeeds (M = 1), the theorem applies and M evaluates to 1. -/
theorem refresh_all_success_count_witness :
    (dbEx.cities.map City.id).Nodup ∧
    (dbEx.cities.filter (fun c => citySucceeds envEx c)).length = 1 ∧
    ∃ dbf, refresh_all_weather_data envEx 0 dbEx =
        .ok ((dbEx.cities.filter (fun c => citySucceeds envEx c)).length, dbf) ∧
      dbf.weather.length =
        dbEx.weather.length + (dbEx.cities.filter (fun c => citySucceeds envEx c)).length ∧
      dbEx.weather <+: dbf.weather ∧ dbf.cities = dbEx.cities :=
  ⟨by decide, by decide, refresh_all_success_count envEx 0 dbEx (by decide)⟩

/-- C2: `update_weather_data` is a strict pipeline: unknown city id,
failed provider fetch, or empty normalization each short-circuit to
`false` with the store untouched; otherwise exactly one complete new
observation for that city is appended and it returns `true`; and every
call path either leaves the store unchanged or appends exactly one full
row for that city (no partial write), never raising. -/
theorem update_weather_pipeline (env : WeatherEnv) (now : Int) (db : DB)
    (cid : Nat) :
    (db.getCity cid = none →
      update_weather_data env now db cid = .ok (false, db)) ∧
    (∀ c, db.getCity cid = some c →
      get_weather_data env.revgeo env.cli c.latitude c.longitude = none →
      update_weather_data env now db cid = .ok (false, db)) ∧
    (∀ c wd, db.getCity cid = some c →
      get_weather_data env.revgeo env.cli c.latitude c.longitude = some wd →
      parse_weather_response wd = .empty →
      update_weather_data env now db cid = .ok (false, db)) ∧
    (∀ c wd p, db.getCity cid = some c →
      get_weather_data env.revgeo env.cli c.latitude c.longitude = some wd →
      parse_weather_response wd = .ok p →
      update_weather_data env now db cid = .ok (true, db.addObservation cid p now) ∧
      (db.addObservation cid p now).weather = db.weather ++
        [⟨db.nextWeatherId, cid, p.temperature, p.description,
          p.humidity, p.wind_speed, now⟩]) ∧
    (∀ b db2, update_weather_data env now db cid = .ok (b, db2) →
      db2 = db ∨ (b = true ∧ ∃ rec, db2.weather = db.weather ++ [rec] ∧
        rec.city_id = cid ∧ db2.cities = db.cities)) ∧
    (∃ r, update_weather_data env now db cid = .ok r) := by
  refine ⟨?_, ?_, ?_, ?_, ?_, ?_⟩
  · intro h
    simp [update_weather_data, h]
  · intro c hc hw
    simp [update_weather_data, hc, hw]
  · intro c wd hc hw hp
    simp [update_weather_data, hc, hw, hp]
  · intro c wd p hc hw hp
    have hid : c.id = cid := getCity_some_id hc
    constructor
    · simp [update_weather_data, hc, hw, hp, hid]
    · rw [← hid]
      rfl
  · intro b db2 h
    cases hg : db.getCity cid with
    | none =>
      simp [update_weather_data, hg] at h
      exact Or.inl h.2.symm
    | some c =>
      rw [update_run env now hg] at h
      cases hp : parsedFor env c with
      | none =>
        rw [hp] at h
        have h3 := Prod.ext_iff.mp (Except.ok.inj h)
        have hdb : db = db2 := h3.2
        exact Or.inl hdb.symm
      | some p =>
        rw [hp] at h
        have h3 := Prod.ext_iff.mp (Except.ok.inj h)
        have hb : true = b := h3.1
        have hdb : db.addObservation c.id p now = db2 := h3.2
        subst hdb
        exact Or.inr ⟨hb.symm, ⟨db.nextWeatherId, c.id, p.temperature,
          p.description, p.humidity, p.wind_speed, now⟩, rfl, getCity_some_id hg, rfl⟩
  · cases hg : db.getCity cid with
    | none => exact ⟨(false, db), by simp [update_weather_data, hg]⟩
    | some c =>
      rw [update_run env now hg]
      cases hp : parsedFor env c with
      | none => exact ⟨(false, db), rfl⟩
      | some p => exact ⟨(true, db.addObservation c.id p now), rfl⟩

/-- Witness for C2: on a concrete store, an unknown id returns `false`
with the store untouched, and a stored city with a successful fetch
returns `true` having appended exactly one observation. -/
theorem update_weather_pipeline_witness :
    dbEx.getCity 99 = none ∧
    update_weather_data envEx 0 dbEx 99 = .ok (false, dbEx) ∧
    dbEx.getCity 1 = some cityA ∧
    update_weather_data envEx 0 dbEx 1 =
      .ok (true, dbEx.addObservation 1 ⟨.num 20, "Clear Sky", .num 50, .num 3⟩ 0) :=
  ⟨by decide,
   (update_weather_pipeline envEx 0 dbEx 99).1 (by decide),
   by decide,
   ((update_weather_pipeline envEx 0 dbEx 1).2.2.2.1 cityA (rawWeatherDict rawEx)
     ⟨.num 20, "Clear Sky", .num 50, .num 3⟩
     (by decide) (by decide) (by decide)).1⟩

/-- C3: `is_weather_data_stale` is true when `last_updated` is absent
(whatever the threshold), true exactly when `now - last_updated` strictly
exceeds the threshold otherwise; with data 10 minutes old it is false at
threshold 30 and true at threshold 5. It is a pure function of
`(now, view, threshold)` in this model, performing no I/O. -/
theorem is_stale_spec (now : Int) (v : CityWithWeather) (m : Int) :
    (v.last_updated = none → is_weather_data_stale now v m = true) ∧
    (∀ t, v.last_updated = some t →
      (is_weather_data_stale now v m = true ↔ now - t > 60 * m)) ∧
    (v.last_updated = some (now - 600) →
      is_weather_data_stale now v 30 = false ∧
      is_weather_data_stale now v 5 = true) := by
  refine ⟨?_, ?_, ?_⟩
  · intro h
    simp [is_weather_data_stale, h]
  · intro t h
    simp [is_weather_data_stale, h]
  · intro h
    constructor
    · simp only [is_weather_data_stale, h, decide_eq_false_iff_not]
      omega
    · simp only [is_weather_data_stale, h, decide_eq_true_eq]
      omega

/-- Witness for C3: all three branches at concrete inputs — data 600
seconds old is fresh at 30 minutes, stale at 5 minutes, and a view with no
`last_updated` is stale even at a huge threshold. -/
theorem is_stale_spec_witness :
    staleViewEx.last_updated = some ((0 : Int) - 600) ∧
    is_weather_data_stale 0 staleViewEx 30 = false ∧
    is_weather_data_stale 0 staleViewEx 5 = true ∧
    is_weather_data_stale 0 emptyViewEx 999999 = true :=
  ⟨by decide,
   ((is_stale_spec 0 staleViewEx 30).2.2 (by decide)).1,
   ((is_stale_spec 0 staleViewEx 5).2.2 (by decide)).2,
   (is_stale_spec 0 emptyViewEx 999999).1 (by decide)⟩

/-- C4: for a city with at least two observations,
`get_all_cities_with_weather` contains the city's view, and that view's
weather fields are exactly those of an observation of the city whose
timestamp is maximal among the city's observations — never an older one.
The selection is a function of the store (deterministic, ties resolved by
the stable first-stored-row rule). -/
theorem latest_observation_selected (db : DB) (c : City) (hc : c ∈ db.cities)
    (h2 : 2 ≤ (db.cityObs c.id).length) :
    cityView db c ∈ get_all_cities_with_weather db ∧
    ∃ w, w ∈ db.cityObs c.id ∧
      (∀ x ∈ db.cityObs c.id, x.updated_at ≤ w.updated_at) ∧
      cityView db c = ⟨c.id, c.name, c.country, some w.temperature,
        some w.description, some w.humidity, some w.wind_speed,
        some w.updated_at⟩ := by
  refine ⟨List.mem_map_of_mem _ hc, ?_⟩
  cases hlat : latestObservation db c.id with
  | none =>
    rw [latestObservation_eq_none hlat] at h2
    simp at h2
  | some w =>
    obtain ⟨hmem, hall⟩ := latestObservation_some hlat
    exact ⟨w, hmem, hall, by simp [cityView, hlat]⟩

/-- Witness for C4: a city with two observations (timestamps 100 and 200);
its view shows exactly the fields of the timestamp-200 observation. -/
theorem latest_observation_selected_witness :
    cityA ∈ dbObs.cities ∧ 2 ≤ (dbObs.cityObs cityA.id).length ∧
    cityView dbObs cityA = ⟨1, "Alpha", "", some (.num 25), some "New",
      some (.num 60), some (.num 4), some 200⟩ ∧
    (cityView dbObs cityA ∈ get_all_cities_with_weather dbObs ∧
     ∃ w, w ∈ dbObs.cityObs cityA.id ∧
       (∀ x ∈ dbObs.cityObs cityA.id, x.updated_at ≤ w.updated_at) ∧
       cityView dbObs cityA = ⟨cityA.id, cityA.name, cityA.country,
         some w.temperature, some w.description, some w.humidity,
         some w.wind_speed, some w.updated_at⟩) :=
  ⟨by decide, by decide, by decide,
   latest_observation_selected dbObs cityA (by decide) (by decide)⟩

/-- C10: every view produced by `get_all_cities_with_weather` has its five
weather fields all present — all drawn from one single stored observation
of that city — or all absent; no view mixes present and absent fields. -/
theorem view_weather_all_or_none (db : DB) (v : CityWithWeather)
    (hv : v ∈ get_all_cities_with_weather db) :
    (∃ w ∈ db.weather, w.city_id = v.id ∧
      v.temperature = some w.temperature ∧ v.description = some w.description ∧
      v.humidity = some w.humidity ∧ v.wind_speed = some w.wind_speed ∧
      v.last_updated = some w.updated_at) ∨
    (v.temperature = none ∧ v.description = none ∧ v.humidity = none ∧
      v.wind_speed = none ∧ v.last_updated = none) := by
  obtain ⟨c, hc, hcv⟩ := List.mem_map.mp hv
  subst hcv
  cases hlat : latestObservation db c.id with
  | none =>
    right
    simp [cityView, hlat]
  | some w =>
    left
    obtain ⟨hmem, -⟩ := latestObservation_some hlat
    obtain ⟨hw, hcid⟩ := mem_cityObs hmem
    refine ⟨w, hw, ?_, ?_, ?_, ?_, ?_, ?_⟩ <;> simp [cityView, hlat, hcid]

/-- Witness for C10: the view of a city that has observations — all five
fields are populated from one stored observation. -/
theorem view_weather_all_or_none_witness :
    cityView dbObs cityA ∈ get_all_cities_with_weather dbObs ∧
    ((∃ w ∈ dbObs.weather, w.city_id = (cityView dbObs cityA).id ∧
      (cityView dbObs cityA).temperature = some w.temperature ∧
      (cityView dbObs cityA).description = some w.description ∧
      (cityView dbObs cityA).humidity = some w.humidity ∧
      (cityView dbObs cityA).wind_speed = some w.wind_speed ∧
      (cityView dbObs cityA).last_updated = some w.updated_at) ∨
    ((cityView dbObs cityA).temperature = none ∧
      (cityView dbObs cityA).description = none ∧
      (cityView dbObs cityA).humidity = none ∧
      (cityView dbObs cityA).wind_speed = none ∧
      (cityView dbObs cityA).last_updated = none)) :=
  ⟨by decide, view_weather_all_or_none dbObs (cityView dbObs cityA) (by decide)⟩

/-- Counterexample for C5: a city named "Alpha" exists in the store, yet
`add_city` for that very name returns not-found instead of the existing
record when the geocoder fails — because the name is re-geocoded before
the existence check. -/
theorem add_city_regeocodes_counterexample :
    (dbEx.cities.find? (fun x => x.name = "Alpha")) = some cityA ∧
    add_city geoFailEx envEx 0 dbEx "Alpha" "" = .ok (none, dbEx) :=
  ⟨by decide, rfl⟩

/-- C5 (amended): provided coordinate resolution succeeds for the name,
`add_city` on an existing name returns that existing record unchanged —
same record both times, no duplicate row, no overwrite of the stored
country or coordinates (the store is returned untouched). The name is
nonetheless geocoded again on every call, before the existence check:
when that geocoding fails, `add_city` returns not-found even though the
city exists. -/
theorem add_city_idempotent_after_geocode (geo : String → Option (Int × Int))
    (env : WeatherEnv) (now : Int) (db : DB) (name country : String) :
    (∀ lat lon c, geo name = some (lat, lon) →
      db.cities.find? (fun x => x.name = name) = some c →
      add_city geo env now db name country = .ok (some c, db)) ∧
    (geo name = none →
      add_city geo env now db name country = .ok (none, db)) := by
  constructor
  · intro lat lon c hgeo hex
    simp [add_city, hgeo, hex]
  · intro hgeo
    simp [add_city, hgeo]

/-- Witness for C5 (amended): with a working geocoder, re-adding "Alpha"
returns the stored record and leaves the store unchanged; with a failing
geocoder the same call returns not-found. -/
theorem add_city_idempotent_after_geocode_witness :
    add_city geoOkEx envEx 0 dbEx "Alpha" "FR" = .ok (some cityA, dbEx) ∧
    add_city geoFailEx envEx 0 dbEx "Alpha" "FR" = .ok (none, dbEx) :=
  ⟨(add_city_idempotent_after_geocode geoOkEx envEx 0 dbEx "Alpha" "FR").1
     0 0 cityA (by decide) (by decide),
   (add_city_idempotent_after_geocode geoFailEx envEx 0 dbEx "Alpha" "FR").2
     (by decide)⟩

/-- C6: when coordinate resolution fails for a name, `add_city` returns
not-found and the store is returned unchanged — no city record is
created. -/
theorem add_city_geocode_failure (geo : String → Option (Int × Int))
    (env : WeatherEnv) (now : Int) (db : DB) (name country : String)
    (h : geo name = none) :
    add_city geo env now db name country = .ok (none, db) := by
  simp [add_city, h]

/-- Witness for C6: the failing geocoder on a fresh name creates nothing. -/
theorem add_city_geocode_failure_witness :
    geoFailEx "Lisbon" = none ∧
    add_city geoFailEx envEx 0 dbEx "Lisbon" "PT" = .ok (none, dbEx) :=
  ⟨by decide, add_city_geocode_failure geoFailEx envEx 0 dbEx "Lisbon" "PT" (by decide)⟩

/-- Counterexample for C7: a payload holding all four required keys whose
description field has the wrong shape (a number) makes
`parse_weather_response` raise `AttributeError` — it neither returns the
empty record nor avoids raising, contradicting the claim that any
wrong-shaped field yields empty and the function never raises. -/
theorem parse_wrong_shape_raises :
    parse_weather_response badPayloadEx = .raises "AttributeError" ∧
    parse_weather_response badPayloadEx ≠ .empty := by
  decide

/-- C7 (amended): normalization is all-or-nothing up to the caught
exceptions: a payload with all four required fields and a string
description yields the full record with the description title-cased
("clear sky" becomes "Clear Sky"); a payload missing any required field
(each inspected in order: temperature, description, humidity, wind speed)
yields empty, never a partially-filled record; but a payload whose present
description is not a string raises `AttributeError` (only `KeyError` and
`TypeError` are caught), rather than returning empty. -/
theorem parse_all_or_nothing (d : PyDict) :
    (∀ t s h w, dictGet d "temperature" = some t →
      dictGet d "description" = some (.str s) →
      dictGet d "humidity" = some h → dictGet d "wind_speed" = some w →
      parse_weather_response d = .ok ⟨t, pyTitle s, h, w⟩) ∧
    (dictGet d "temperature" = none → parse_weather_response d = .empty) ∧
    (∀ t, dictGet d "temperature" = some t →
      dictGet d "description" = none → parse_weather_response d = .empty) ∧
    (∀ t s, dictGet d "temperature" = some t →
      dictGet d "description" = some (.str s) →
      dictGet d "humidity" = none → parse_weather_response d = .empty) ∧
    (∀ t s h, dictGet d "temperature" = some t →
      dictGet d "description" = some (.str s) →
      dictGet d "humidity" = some h →
      dictGet d "wind_speed" = none → parse_weather_response d = .empty) ∧
    (∀ t n, dictGet d "temperature" = some t →
      dictGet d "description" = some (.num n) →
      parse_weather_response d = .raises "AttributeError") ∧
    pyTitle "clear sky" = "Clear Sky" := by
  refine ⟨?_, ?_, ?_, ?_, ?_, ?_, by decide⟩
  · intro t s h w h1 h2 h3 h4
    simp [parse_weather_response, dictGet_some_not_empty h1, h1, h2, h3, h4]
  · intro h1
    cases hd : d.isEmpty with
    | true => simp [parse_weather_response, hd]
    | false => simp [parse_weather_response, hd, h1]
  · intro t h1 h2
    simp [parse_weather_response, dictGet_some_not_empty h1, h1, h2]
  · intro t s h1 h2 h3
    simp [parse_weather_response, dictGet_some_not_empty h1, h1, h2, h3]
  · intro t s h h1 h2 h3 h4
    simp [parse_weather_response, dictGet_some_not_empty h1, h1, h2, h3, h4]
  · intro t n h1 h2
    simp [parse_weather_response, dictGet_some_not_empty h1, h1, h2]

/-- Witness for C7 (amended): the round-trip payload with description
"clear sky" parses to the full record with description "Clear Sky". -/
theorem parse_all_or_nothing_witness :
    parse_weather_response goodPayloadEx =
      .ok ⟨.num 22, "Clear Sky", .num 65, .num 3⟩ :=
  ((parse_all_or_nothing goodPayloadEx).1 (.num 22) "clear sky" (.num 65)
    (.num 3) (by decide) (by decide) (by decide) (by decide)).trans (by decide)

/-- C8: `delete_city` returns `false` leaving the store unchanged when no
city has the id; otherwise it returns `true` and, in one state transition,
removes the city row together with every observation of it (and nothing
else), after which `get_all_cities_with_weather` excludes the city and a
second `delete_city` on the same id returns `false`. -/
theorem delete_city_spec (db : DB) (cid : Nat) :
    (db.getCity cid = none → delete_city db cid = (false, db)) ∧
    (∀ c, db.getCity cid = some c →
      (delete_city db cid).1 = true ∧
      (∀ x ∈ (delete_city db cid).2.cities, x.id ≠ cid) ∧
      (∀ w ∈ (delete_city db cid).2.weather, w.city_id ≠ cid) ∧
      (∀ x ∈ db.cities, x.id ≠ cid → x ∈ (delete_city db cid).2.cities) ∧
      (∀ w ∈ db.weather, w.city_id ≠ cid → w ∈ (delete_city db cid).2.weather) ∧
      (∀ v ∈ get_all_cities_with_weather (delete_city db cid).2, v.id ≠ cid) ∧
      delete_city (delete_city db cid).2 cid = (false, (delete_city db cid).2)) := by
  constructor
  · intro h
    simp [delete_city, h]
  · intro c hc
    have hdel : delete_city db cid =
        (true, { db with
          cities := db.cities.filter (fun x => ¬ x.id = cid),
          weather := db.weather.filter (fun w => ¬ w.city_id = cid) }) := by
      simp [delete_city, hc]
    rw [hdel]
    have hgone : ∀ x ∈ db.cities.filter (fun x => ¬ x.id = cid), x.id ≠ cid := by
      intro x hx
      exact of_decide_eq_true (List.mem_filter.mp hx).2
    refine ⟨rfl, hgone, ?_, ?_, ?_, ?_, ?_⟩
    · intro w hw
      exact of_decide_eq_true (List.mem_filter.mp hw).2
    · intro x hx hne
      exact List.mem_filter.mpr ⟨hx, decide_eq_true hne⟩
    · intro w hw hne
      exact List.mem_filter.mpr ⟨hw, decide_eq_true hne⟩
    · intro v hv
      obtain ⟨x, hx, hxv⟩ := List.mem_map.mp hv
      rw [← hxv, cityView_id]
      exact hgone x hx
    · have hnone : ({ db with
          cities := db.cities.filter (fun x => ¬ x.id = cid),
          weather := db.weather.filter (fun w => ¬ w.city_id = cid) } : DB).getCity
            cid = none := by
        refine List.find?_eq_none.mpr ?_
        intro x hx
        simp only [decide_eq_true_eq]
        exact hgone x hx
      unfold delete_city
      rw [hnone]

/-- Witness for C8: deleting city 1 from the two-observation store removes
the city and both its observations; deleting it again returns `false`. -/
theorem delete_city_spec_witness :
    dbObs.getCity 1 = some cityA ∧
    dbObs.getCity 7 = none ∧
    delete_city dbObs 7 = (false, dbObs) ∧
    (delete_city dbObs 1).1 = true ∧
    (∀ x ∈ (delete_city dbObs 1).2.cities, x.id ≠ 1) ∧
    (∀ w ∈ (delete_city dbObs 1).2.weather, w.city_id ≠ 1) ∧
    delete_city (delete_city dbObs 1).2 1 = (false, (delete_city dbObs 1).2) :=
  ⟨by decide, by decide,
   (delete_city_spec dbObs 7).1 (by decide),
   ((delete_city_spec dbObs 1).2 cityA (by decide)).1,
   ((delete_city_spec dbObs 1).2 cityA (by decide)).2.1,
   ((delete_city_spec dbObs 1).2 cityA (by decide)).2.2.1,
   ((delete_city_spec dbObs 1).2 cityA (by decide)).2.2.2.2.2.2⟩

/-- C9: whenever `get_weather_data` returns a payload, that payload is the
four-field dict built from the provider object: all four keys are always
present, and any attribute the provider omits is substituted with its
default (0.0 for temperature, humidity and wind speed, "Unknown" for the
description) rather than causing a not-found result or a missing key. -/
theorem get_weather_data_total_fields (revgeo : Int → Int → Option String)
    (cli : String → Option RawWeather) (lat lon : Int) (p : PyDict)
    (h : get_weather_data revgeo cli lat lon = some p) :
    ∃ w : RawWeather, p = rawWeatherDict w ∧
      dictGet p "temperature" = some (.num (w.temperature.getD 0)) ∧
      dictGet p "description" = some (.str (rawDesc w)) ∧
      dictGet p "humidity" = some (.num (w.humidity.getD 0)) ∧
      dictGet p "wind_speed" = some (.num (w.wind_speed.getD 0)) ∧
      (w.temperature = none → dictGet p "temperature" = some (.num 0)) ∧
      (w.description = none → dictGet p "description" = some (.str "Unknown")) ∧
      (w.humidity = none → dictGet p "humidity" = some (.num 0)) ∧
      (w.wind_speed = none → dictGet p "wind_speed" = some (.num 0)) := by
  unfold get_weather_data at h
  cases hr : revgeo lat lon with
  | none =>
    rw [hr] at h
    have h0 : (none : Option PyDict) = some p := h
    cases h0
  | some n =>
    rw [hr] at h
    have h2 : (match cli n with
      | none => none
      | some w => some (rawWeatherDict w)) = some p := h
    cases hcli : cli n with
    | none =>
      rw [hcli] at h2
      have h0 : (none : Option PyDict) = some p := h2
      cases h0
    | some w =>
      rw [hcli] at h2
      have hp : p = rawWeatherDict w := (Option.some.inj h2).symm
      subst hp
      refine ⟨w, rfl, dictGet_rawWeatherDict_temperature w,
        dictGet_rawWeatherDict_description w,
        dictGet_rawWeatherDict_humidity w,
        dictGet_rawWeatherDict_wind_speed w, ?_, ?_, ?_, ?_⟩
      · intro hw
        rw [dictGet_rawWeatherDict_temperature w, hw]
        rfl
      · intro hw
        rw [dictGet_rawWeatherDict_description w]
        simp [rawDesc, hw]
      · intro hw
        rw [dictGet_rawWeatherDict_humidity w, hw]
        rfl
      · intro hw
        rw [dictGet_rawWeatherDict_wind_speed w, hw]
        rfl

/-- Witness for C9: a provider object with every attribute absent still
yields a payload with all four keys, holding exactly the defaults. -/
theorem get_weather_data_total_fields_witness :
    get_weather_data envEx.revgeo (fun _ => some rawEmptyEx) 0 0 =
      some (rawWeatherDict rawEmptyEx) ∧
    ∃ w : RawWeather, rawWeatherDict rawEmptyEx = rawWeatherDict w ∧
      dictGet (rawWeatherDict rawEmptyEx) "temperature" = some (.num (w.temperature.getD 0)) ∧
      dictGet (rawWeatherDict rawEmptyEx) "description" = some (.str (rawDesc w)) ∧
      dictGet (rawWeatherDict rawEmptyEx) "humidity" = some (.num (w.humidity.getD 0)) ∧
      dictGet (rawWeatherDict rawEmptyEx) "wind_speed" = some (.num (w.wind_speed.getD 0)) ∧
      (w.temperature = none → dictGet (rawWeatherDict rawEmptyEx) "temperature" = some (.num 0)) ∧
      (w.description = none → dictGet (rawWeatherDict rawEmptyEx) "description" = some (.str "Unknown")) ∧
      (w.humidity = none → dictGet (rawWeatherDict rawEmptyEx) "humidity" = some (.num 0)) ∧
      (w.wind_speed = none → dictGet (rawWeatherDict rawEmptyEx) "wind_speed" = some (.num 0)) :=
  ⟨by decide,
   get_weather_data_total_fields envEx.revgeo (fun _ => some rawEmptyEx) 0 0
     (rawWeatherDict rawEmptyEx) (by decide)⟩

end WeatherApp
